import Mathlib

/-!
Verification development for the vorthain/vortex HTTP client core
(src/requestBuilder.js, src/error.js, src/cache.js).

The JavaScript source is shallowly embedded: JS objects become structures,
optional/absent fields become `Option`, JS `Map` becomes an
insertion-ordered association list with unique keys, thrown `VortexError`s
become `Except` results or explicit error components, and the wall clock
becomes an explicit `now : Nat` argument. Caller-supplied hooks (mappers,
interceptors, transports) are parameters of the embedded functions.
-/

set_option autoImplicit false

/-- Error kinds of `VortexError.TYPES` (error.js 1787-1804). -/
inductive ErrKind
  | http
  | network
  | abort
  | config
  | timeout
  | parse
  | cache
  | validation
deriving DecidableEq, Repr

/-- A classified error (error.js `VortexError`), reduced to the fields the
claims observe: the kind tag, the message, and the optional HTTP status. -/
structure VortexError where
  kind : ErrKind
  message : String
  status : Option Int := none
deriving DecidableEq, Repr

/-- JS `a || b` for an optional numeric config field: an absent field and the
number 0 are falsy and fall through to `b`; any other number is returned. -/
def jsOrNum (a : Option Int) (b : Int) : Int :=
  match a with
  | some n => if n = 0 then b else n
  | none => b

/-- JS `a || b` for an optional string config field: an absent field and the
empty string are falsy and fall through to `b`. -/
def jsOrStr (a : Option String) (b : String) : String :=
  match a with
  | some s => if s = "" then b else s
  | none => b

/-- One configuration level (client, endpoint, method or request), restricted
to the two fields resolved by the explicit cascade at requestBuilder.js
495-509. -/
structure CascadeLevel where
  maxRetries : Option Int := none
  redirect : Option String := none
deriving DecidableEq, Repr

/-- Embeds requestBuilder.js 503-508: `maxRetries` is resolved by the JS
chain `request.maxRetries || method.maxRetries || endpoint.maxRetries ||
client.maxRetries || 10`. -/
def resolveMaxRetries (client endpoint method request : CascadeLevel) : Int :=
  jsOrNum request.maxRetries
    (jsOrNum method.maxRetries
      (jsOrNum endpoint.maxRetries
        (jsOrNum client.maxRetries 10)))

/-- Embeds requestBuilder.js 496-501: `redirect` is resolved by the JS chain
`request.redirect || method.redirect || endpoint.redirect ||
client.redirect || 'follow'`. -/
def resolveRedirect (client endpoint method request : CascadeLevel) : String :=
  jsOrStr request.redirect
    (jsOrStr method.redirect
      (jsOrStr endpoint.redirect
        (jsOrStr client.redirect "follow")))

/-- The built-in status validator (requestBuilder.js 454):
`(status) => status >= 200 && status < 300`. -/
def defaultValidateStatus (status : Int) : Bool :=
  decide (200 ≤ status ∧ status < 300)

/-- Embeds requestBuilder.js 511-522: when the resolved `redirect` is
`'manual'`, the resolved status validator is replaced by a wrapper that
accepts every 3xx status and otherwise calls the original validator. -/
def wrapValidateForRedirect (redirect : String) (validate : Int → Bool) : Int → Bool :=
  if redirect = "manual" then
    fun status => if 300 ≤ status ∧ status < 400 then true else validate status
  else
    validate

/-- Embeds line 536 of `_createRetryFunction`:
`const maxRetries = originalConfig.maxRetries || 10`. The resolved config
always carries a nonzero `maxRetries` (see `resolveMaxRetries`), so inside
the retry function a zero value falls back to 10. -/
def retryBudget (maxRetries : Nat) : Nat :=
  if maxRetries = 0 then 10 else maxRetries

/-- Embeds the budget check of `_createRetryFunction` (539-541): a `retry()`
call made with retry counter `retryCount` returns `undefined` (modelled as
`true` here) exactly when `retryCount >= maxRetries`. -/
def retryReturnsUndefined (maxRetries retryCount : Nat) : Bool :=
  retryBudget maxRetries ≤ retryCount

/-- Embeds the mutual recursion of `_executeRequestAndHandleCallbacks`
(575-647) and `_createRetryFunction` (533-567) specialised to the claim C3
scenario: the transport fails on every attempt and the error interceptor
unconditionally awaits `retry()`. The result is the total number of
transport invocations starting from an attempt whose `_retryCount` is
`retryCount` (the first attempt has `_retryCount = 0`, and each retry
re-enters with the counter incremented by one, line 560). -/
def runAlwaysRetry (maxRetries retryCount : Nat) : Nat :=
  if retryBudget maxRetries ≤ retryCount then
    1
  else
    1 + runAlwaysRetry maxRetries (retryCount + 1)
termination_by retryBudget maxRetries - retryCount
decreasing_by omega

/-- The outcome of one mapper stage applied to the current value: a defined
return value, `undefined`, or a thrown exception. -/
inductive MapperOutcome (α : Type)
  | val (v : α)
  | undef
  | thrown
deriving DecidableEq, Repr

/-- Embeds one iteration of the mapper loop shared by
`_applyResponseMappers` (666-674) and `_applyErrorMappers` (693-701): a
defined result becomes the new current value; `undefined` and a thrown
exception both leave the current value unchanged (the exception is caught
and only logged). -/
def applyMapperStage {α : Type} (cur : α) (m : α → MapperOutcome α) : α :=
  match m cur with
  | .val w => w
  | .undef => cur
  | .thrown => cur

/-- The mapper pipeline: every stage runs in order over the current value. -/
def applyMapperPipeline {α : Type} (x : α) (ms : List (α → MapperOutcome α)) : α :=
  ms.foldl applyMapperStage x

/-- Embeds `_applyResponseMappers` (656-677) with the mappers already
collected; response payloads are opaque and modelled as `Int`. -/
def applyResponseMappers (data : Int) (ms : List (Int → MapperOutcome Int)) : Int :=
  applyMapperPipeline data ms

/-- Embeds `_applyErrorMappers` (686-704) with the mappers already
collected. -/
def applyErrorMappers (e : VortexError) (ms : List (VortexError → MapperOutcome VortexError)) :
    VortexError :=
  applyMapperPipeline e ms

/-- One configuration level as seen by `_collectMappers` (712-748): its
`inheritMappers` flag (absent when not set), its declared mapper functions
for the requested mapper type (already flattened from the
function-or-array field, functions only), and the level name used for
logging. Mapper functions are identified by an opaque `Nat` id. -/
structure MapperLevel where
  inheritMappers : Option Bool := none
  mappers : List Nat := []
  name : String
deriving DecidableEq, Repr

/-- Embeds one iteration of the `_collectMappers` loop (723-745): a level
whose `inheritMappers` is explicitly `false` first clears every mapper
collected so far (only when some were collected, which is equivalent),
then appends its own mappers tagged with its level name. -/
def collectStep (acc : List (Nat × String)) (level : MapperLevel) : List (Nat × String) :=
  let acc := if level.inheritMappers = some false ∧ acc ≠ [] then [] else acc
  acc ++ level.mappers.map (fun m => (m, level.name))

/-- Embeds `_collectMappers` (712-748): the levels are visited in the order
client, endpoint, method, request. -/
def collectMappers (levels : List MapperLevel) : List (Nat × String) :=
  levels.foldl collectStep []

/-- Behaviour of the error interceptor on a given error: it either returns a
value (`ret (some v)`), returns `undefined` (`ret none`), or throws. Thrown
values are already `VortexError`s (a non-`VortexError` throw is wrapped into
a CONFIG-kind one at 611-619 before proceeding, which this model folds into
the thrown error itself). -/
inductive InterceptorBehavior
  | ret (v : Option Int)
  | err (e : VortexError)
deriving DecidableEq, Repr

/-- The observable outcome of `_executeRequestAndHandleCallbacks`: the value
the promise settles with, and the argument passed to the `onError`
callback when it was invoked. -/
structure ExecOutcome where
  result : Except VortexError Int
  onErrorArg : Option VortexError
deriving Repr

/-- Embeds `_executeRequestAndHandleCallbacks` (575-647) for one attempt
whose error interceptor does not call `retry()`. On success the response
mappers run and `onSuccess` fires. On failure: if the interceptor returns a
defined value that value is returned as-is (no response mappers); if it
returns `undefined` or throws, the (possibly replaced) error goes through
the error mappers, then `onError`, and is finally thrown. -/
def executeRequestAndHandleCallbacks
    (fetchResult : Except VortexError Int)
    (responseMappers : List (Int → MapperOutcome Int))
    (errorMappers : List (VortexError → MapperOutcome VortexError))
    (errorInterceptor : Option (VortexError → InterceptorBehavior)) : ExecOutcome :=
  match fetchResult with
  | .ok data =>
      { result := .ok (applyResponseMappers data responseMappers), onErrorArg := none }
  | .error e =>
      let finish : VortexError → ExecOutcome := fun fe =>
        let mapped := applyErrorMappers fe errorMappers
        { result := .error mapped, onErrorArg := some mapped }
      match errorInterceptor with
      | none => finish e
      | some icpt =>
          match icpt e with
          | .ret (some v) => { result := .ok v, onErrorArg := none }
          | .ret none => finish e
          | .err e2 => finish e2

/-- The observable outcome of `_handleStaleWhileRevalidate`: what `send()`
settles with (`none` models the JS value `null`), and the argument passed
to the `onRevalidate` callback when the refresh succeeded. -/
structure SwrOutcome where
  result : Except VortexError (Option Int)
  onRevalidateArg : Option Int
deriving Repr

/-- Embeds `_handleStaleWhileRevalidate` (1484-1531) for a request with no
refresh already in flight. `cacheGet` is the outcome of
`cache.instance.get(cacheKey)` (it may throw, or return the stale value or
null); `refresh` is the outcome of the revalidation request
(`_executeRequestAndHandleCallbacks`). The revalidation promise invokes
`onRevalidate` with the fresh value on success and swallows a failure by
resolving to null (the catch at 1509-1512). Stale data, when present, is
returned immediately; otherwise the revalidation promise is awaited. A
throwing cache lookup falls back to a plain request (1527-1530). -/
def handleStaleWhileRevalidate
    (cacheGet : Except VortexError (Option Int))
    (refresh : Except VortexError Int) : SwrOutcome :=
  match cacheGet with
  | .error _ =>
      match refresh with
      | .ok v => { result := .ok (some v), onRevalidateArg := none }
      | .error e => { result := .error e, onRevalidateArg := none }
  | .ok staleData =>
      let revalidated : Option Int :=
        match refresh with
        | .ok v => some v
        | .error _ => none
      match staleData with
      | some stale => { result := .ok (some stale), onRevalidateArg := revalidated }
      | none => { result := .ok revalidated, onRevalidateArg := revalidated }

/-- A cache entry (cache.js 182-193): the stored data, the absolute expiry
timestamp `now + ttl`, and the creation timestamp. The optional `etag` and
`metadata` fields are omitted (always absent in the claims considered). -/
structure CacheEntry where
  data : Int
  expiry : Nat
  createdAt : Nat
deriving DecidableEq, Repr

/-- JS `Map.get`: the value bound to `k`, if any. The map is embedded as an
insertion-ordered association list whose keys are unique. -/
def mapGet (m : List (String × CacheEntry)) (k : String) : Option CacheEntry :=
  (m.find? (fun p => p.1 == k)).map (fun p => p.2)

/-- JS `Map.has`. -/
def mapHas (m : List (String × CacheEntry)) (k : String) : Bool :=
  m.any (fun p => p.1 == k)

/-- JS `Map.delete`: removes the binding of `k` (keys are unique, so the
filter removes at most the one binding). -/
def mapDelete (m : List (String × CacheEntry)) (k : String) : List (String × CacheEntry) :=
  m.filter (fun p => p.1 != k)

/-- JS `Map.set`: an existing key keeps its position in insertion order and
gets the new value; a new key is appended at the end. -/
def mapSet (m : List (String × CacheEntry)) (k : String) (e : CacheEntry) :
    List (String × CacheEntry) :=
  if mapHas m k then
    m.map (fun p => if p.1 == k then (k, e) else p)
  else
    m ++ [(k, e)]

/-- State of a `SimpleCache` (cache.js 98-142): the entry map, the capacity,
the `enableStats` flag and the statistics counters. The cleanup timer is
not part of the state; `_cleanup` is driven explicitly by the clock. -/
structure SimpleCache where
  cache : List (String × CacheEntry)
  maxSize : Nat
  enableStats : Bool
  hits : Nat := 0
  misses : Nat := 0
  sets : Nat := 0
  deletes : Nat := 0
  evictions : Nat := 0
deriving DecidableEq, Repr

/-- Embeds `_incrementStat` (334-338): a counter moves only when stats are
enabled. -/
def incrStat (enabled : Bool) (n : Nat) : Nat :=
  if enabled then n + 1 else n

/-- Embeds `SimpleCache.get` (149-170) with an explicit clock `now` standing
for `Date.now()`. Returns the value handed back to the caller (`none`
models `null`) together with the updated cache state: a hit on an entry
with `entry.expiry < now` deletes the entry and counts a miss. -/
def SimpleCache.get (c : SimpleCache) (key : String) (now : Nat) :
    Option Int × SimpleCache :=
  match mapGet c.cache key with
  | none => (none, { c with misses := incrStat c.enableStats c.misses })
  | some entry =>
      if entry.expiry < now then
        (none, { c with cache := mapDelete c.cache key,
                        misses := incrStat c.enableStats c.misses })
      else
        (some entry.data, { c with hits := incrStat c.enableStats c.hits })

/-- Embeds `SimpleCache.has` (229-243): same expiry rule as `get`, without
touching the hit/miss counters. -/
def SimpleCache.has (c : SimpleCache) (key : String) (now : Nat) : Bool × SimpleCache :=
  match mapGet c.cache key with
  | none => (false, c)
  | some entry =>
      if entry.expiry < now then
        (false, { c with cache := mapDelete c.cache key })
      else
        (true, c)

/-- Embeds `_evictOldest` (321-327): `this.cache.keys().next().value` is the
first (oldest-inserted) key; deleting it from a JS map with unique keys
removes exactly the head binding. An empty map is left untouched. -/
def SimpleCache.evictOldest (c : SimpleCache) : SimpleCache :=
  match c.cache with
  | [] => c
  | _ :: rest => { c with cache := rest, evictions := incrStat c.enableStats c.evictions }

/-- Embeds `SimpleCache.set` (182-205): builds the entry with
`expiry = now + ttl`, evicts the oldest entry when the map is at capacity
and the key is new, then stores the entry and counts a set. -/
def SimpleCache.set (c : SimpleCache) (key : String) (data : Int) (ttl now : Nat) :
    SimpleCache :=
  let entry : CacheEntry := { data := data, expiry := now + ttl, createdAt := now }
  let c1 := if c.maxSize ≤ c.cache.length ∧ mapHas c.cache key = false then c.evictOldest else c
  { c1 with cache := mapSet c1.cache key entry, sets := incrStat c1.enableStats c1.sets }

/-- A JS value passed to one of the fluent builder methods. Plain objects
carry opaque `String`-keyed `Int` entries. -/
inductive JsArg
  | jsNull
  | jsUndefined
  | obj (fields : List (String × Int))
  | arr (elems : List Int)
  | str (s : String)
  | num (n : Int)
  | bool (b : Bool)
deriving DecidableEq, Repr

/-- JS check `params !== null && params !== undefined` (negated). -/
def isNullOrUndefined : JsArg → Bool
  | .jsNull => true
  | .jsUndefined => true
  | _ => false

/-- JS check `typeof params !== 'object' || Array.isArray(params)` from
requestBuilder.js 223, 253 and 323 (reached only after the null/undefined
guard; `typeof null` is `'object'`). -/
def failsPlainObjectCheck : JsArg → Bool
  | .obj _ => false
  | .jsNull => false
  | .jsUndefined => true
  | .arr _ => true
  | .str _ => true
  | .num _ => true
  | .bool _ => true

/-- The fields of a plain-object argument ([] on the other shapes, which the
success branches never reach). -/
def jsObjFields : JsArg → List (String × Int)
  | .obj f => f
  | _ => []

/-- JS object spread `{ ...a, ...b }`: keys of `a` keep their order, values
overridden by `b` where keys collide, then the new keys of `b` follow. -/
def spreadMerge (a b : List (String × Int)) : List (String × Int) :=
  a.map (fun p =>
    match b.find? (fun q => q.1 == p.1) with
    | some q => (p.1, q.2)
    | none => p)
  ++ b.filter (fun q => !(a.any (fun p => p.1 == q.1)))

/-- Accumulated per-request state `this.requestConfig` (190-196). -/
structure RequestConfigState where
  pathParams : List (String × Int) := []
  searchParams : List (String × Int) := []
  body : Option Int := none
  settings : List (String × Int) := []
deriving DecidableEq, Repr

/-- The error thrown by `pathParams` on a bad argument (224-228). -/
def pathParamsError : VortexError :=
  { kind := .validation, message := "pathParams must be an object" }

/-- The error thrown by `search` on a bad argument (254-258). -/
def searchParamsError : VortexError :=
  { kind := .validation, message := "search params must be an object" }

/-- The error thrown by `settings` on a bad argument (324-328). -/
def settingsError : VortexError :=
  { kind := .validation, message := "settings must be an object" }

/-- Embeds `RequestBuilder.pathParams` (221-233). The pair is (thrown error
if any, builder state afterwards); returning the unchanged state together
with `none` models `return this` for chaining. -/
def builderPathParams (s : RequestConfigState) (params : JsArg) :
    Option VortexError × RequestConfigState :=
  if isNullOrUndefined params = true then
    (none, s)
  else if failsPlainObjectCheck params = true then
    (some pathParamsError, s)
  else
    (none, { s with pathParams := spreadMerge s.pathParams (jsObjFields params) })

/-- Embeds `RequestBuilder.search` (251-263). -/
def builderSearch (s : RequestConfigState) (params : JsArg) :
    Option VortexError × RequestConfigState :=
  if isNullOrUndefined params = true then
    (none, s)
  else if failsPlainObjectCheck params = true then
    (some searchParamsError, s)
  else
    (none, { s with searchParams := spreadMerge s.searchParams (jsObjFields params) })

/-- Embeds `RequestBuilder.settings` (321-333). -/
def builderSettings (s : RequestConfigState) (settings : JsArg) :
    Option VortexError × RequestConfigState :=
  if isNullOrUndefined settings = true then
    (none, s)
  else if failsPlainObjectCheck settings = true then
    (some settingsError, s)
  else
    (none, { s with settings := spreadMerge s.settings (jsObjFields settings) })

/-- Fixture: client level declaring responseMapper `f` (id 1). -/
def clientLevelEx : MapperLevel := { name := "client", mappers := [1] }

/-- Fixture: endpoint level with no mapper settings. -/
def endpointLevelEx : MapperLevel := { name := "endpoint" }

/-- Fixture: method level declaring responseMapper `g` (id 2) together with
`inheritMappers: false`. -/
def methodLevelEx : MapperLevel :=
  { name := "method", inheritMappers := some false, mappers := [2] }

/-- Fixture: request level with no mapper settings. -/
def requestLevelEx : MapperLevel := { name := "request" }

/-- Fixture mapper stage 1: returns the value plus one. -/
def stage1Ex : Int → MapperOutcome Int := fun v => .val (v + 1)

/-- Fixture mapper stage 2: always throws. -/
def stage2Ex : Int → MapperOutcome Int := fun _ => .thrown

/-- Fixture mapper stage 3: returns the value doubled. -/
def stage3Ex : Int → MapperOutcome Int := fun v => .val (v * 2)

/-- Fixture: an HTTP-kind classified error with status 500. -/
def httpError500Ex : VortexError :=
  { kind := .http, message := "HTTP 500: Internal Server Error", status := some 500 }

/-- Fixture: an error interceptor that recovers every failure with the
defined value 42. -/
def icptRecoverEx : VortexError → InterceptorBehavior := fun _ => .ret (some 42)

/-- Fixture: a cache holding one entry whose expiry timestamp is 100. -/
def cacheAtExpiryEx : SimpleCache :=
  { cache := [("k", { data := 7, expiry := 100, createdAt := 0 })],
    maxSize := 1000, enableStats := false }

/-- Fixture: an empty cache constructed with `maxSize: 0` and stats on. -/
def zeroCapacityCacheEx : SimpleCache :=
  { cache := [], maxSize := 0, enableStats := true }

/-- Fixture: a cache at capacity 1 holding the entry keyed "a", stats on. -/
def fullCacheEx : SimpleCache :=
  { cache := [("a", { data := 1, expiry := 50, createdAt := 0 })],
    maxSize := 1, enableStats := true }

/-- Fixture: a builder state with accumulated path parameters and a body. -/
def builderStateEx : RequestConfigState :=
  { pathParams := [("id", 3)], searchParams := [("page", 1)], body := some 9 }

/-- Helper for C3: from any starting counter, the always-retrying execution
invokes the transport once per counter value up to and including the
budget. -/
theorem runAlwaysRetry_eq (M c : Nat) : runAlwaysRetry M c = (retryBudget M - c) + 1 := by
  rw [runAlwaysRetry]
  split
  · next h => omega
  · next h =>
      have ih := runAlwaysRetry_eq M (c + 1)
      omega
termination_by retryBudget M - c
decreasing_by omega

/-- C1: the claim says an explicit `maxRetries: 0` at a higher-precedence
level is honored. The code (requestBuilder.js 503-508) resolves the field
with the JS `||` chain, so the falsy value 0 set at request level falls
through to the next level that sets a nonzero value, or to the built-in
default 10 — the claim fails on the code. The `redirect` chain behaves as
claimed for its (non-empty string) values. -/
theorem c1_maxRetries_zero_is_overridden :
    resolveMaxRetries {} {} {} { maxRetries := some 0 } = 10
    ∧ resolveMaxRetries { maxRetries := some 5 } {} {} { maxRetries := some 0 } = 5
    ∧ resolveRedirect { redirect := some "error" } {} {} { redirect := some "manual" }
        = "manual" := by
  refine ⟨rfl, rfl, rfl⟩

/-- C2: the claim says that under SWR, when the cache lookup returns null,
a failing refresh propagates its classified error to the caller. In the
code the revalidation promise swallows the failure (the catch at
requestBuilder.js 1509-1512 resolves it to null), so `send()` resolves
with null instead of rejecting: at the failing input (cache miss, refresh
rejects with a NETWORK-kind error) the outcome is `ok none` and
`onRevalidate` is not invoked. -/
theorem c2_swr_miss_refresh_error_resolves_null :
    handleStaleWhileRevalidate (.ok none)
        (.error { kind := .network, message := "Network request failed" })
      = { result := .ok none, onRevalidateArg := none } := rfl

/-- C3: with resolved `maxRetries = N` (necessarily nonzero, see
`resolveMaxRetries`), an error interceptor that unconditionally awaits
`retry()` on every failing attempt observes exactly `N + 1` transport
invocations (the initial attempt with counter 0 plus `N` retries, the
counter incrementing by one each time), and the `retry()` call made when
the counter has reached `N` returns `undefined` without throwing. -/
theorem c3_retry_budget (N : Nat) (h : 0 < N) :
    runAlwaysRetry N 0 = N + 1 ∧ retryReturnsUndefined N N = true := by
  have hN : N ≠ 0 := by omega
  constructor
  · have heq := runAlwaysRetry_eq N 0
    have hb : retryBudget N = N := by simp [retryBudget, hN]
    omega
  · simp [retryReturnsUndefined, retryBudget, hN]

/-- Witness for C3 at `N = 3`: four transport invocations, and the retry
call at counter 3 signals exhaustion. -/
theorem c3_retry_budget_witness :
    runAlwaysRetry 3 0 = 3 + 1 ∧ retryReturnsUndefined 3 3 = true :=
  c3_retry_budget 3 (by decide)

/-- Helper for C5: a level with `inheritMappers` explicitly false always
leaves exactly its own mappers in the accumulator. -/
theorem collectStep_inherit_false (acc : List (Nat × String)) (l : MapperLevel)
    (h : l.inheritMappers = some false) :
    collectStep acc l = l.mappers.map (fun m => (m, l.name)) := by
  by_cases hacc : acc = []
  · subst hacc; simp [collectStep, h]
  · simp [collectStep, h, hacc]

/-- C5: in the client → endpoint → method → request collection order, a
level whose `inheritMappers` flag is explicitly false discards every
mapper collected from the earlier levels before adding its own: the
collected pipeline restarts from that level's own mappers. -/
theorem c5_inherit_break_resets (pre post : List MapperLevel) (l : MapperLevel)
    (h : l.inheritMappers = some false) :
    collectMappers (pre ++ l :: post)
      = List.foldl collectStep (l.mappers.map (fun m => (m, l.name))) post := by
  unfold collectMappers
  rw [List.foldl_append, List.foldl_cons, collectStep_inherit_false _ _ h]

/-- Witness for C5: responseMapper `f` (id 1) at client plus responseMapper
`g` (id 2) with `inheritMappers: false` at method yields a pipeline
containing exactly `g`. -/
theorem c5_inherit_break_resets_witness :
    collectMappers [clientLevelEx, endpointLevelEx, methodLevelEx, requestLevelEx]
      = [(2, "method")] :=
  (c5_inherit_break_resets [clientLevelEx, endpointLevelEx] [requestLevelEx]
    methodLevelEx rfl).trans (by decide)

/-- C6: when the resolved redirect policy is `'manual'`, the effective
status validator accepts every status in 300-399 and delegates every other
status to the original validator unchanged. -/
theorem c6_manual_redirect_validator (validate : Int → Bool) (status : Int) :
    (300 ≤ status → status < 400 →
        wrapValidateForRedirect "manual" validate status = true)
    ∧ (¬(300 ≤ status ∧ status < 400) →
        wrapValidateForRedirect "manual" validate status = validate status) := by
  constructor
  · intro h1 h2
    simp [wrapValidateForRedirect, h1, h2]
  · intro h
    simp [wrapValidateForRedirect, h]

/-- Witness for C6: a 302 response is treated as valid under manual
redirects even though the configured validator only accepts 2xx. -/
theorem c6_manual_redirect_validator_witness :
    wrapValidateForRedirect "manual" defaultValidateStatus 302 = true
    ∧ defaultValidateStatus 302 = false :=
  ⟨(c6_manual_redirect_validator defaultValidateStatus 302).1 (by decide) (by decide),
   by decide⟩

/-- Helper for C7: a stage whose function returns `undefined` or throws
leaves the current value unchanged. -/
theorem applyMapperStage_keeps_value {α : Type} (cur : α) (m : α → MapperOutcome α)
    (h : m cur = MapperOutcome.undef ∨ m cur = MapperOutcome.thrown) :
    applyMapperStage cur m = cur := by
  rcases h with h | h <;> simp [applyMapperStage, h]

/-- C7: a pipeline stage that returns `undefined` or throws leaves the
current value unchanged, and all remaining stages still run in declaration
order on that value. -/
theorem c7_mapper_fault_isolation (v : Int) (pre post : List (Int → MapperOutcome Int))
    (s : Int → MapperOutcome Int)
    (h : s (applyResponseMappers v pre) = .undef ∨ s (applyResponseMappers v pre) = .thrown) :
    applyResponseMappers v (pre ++ s :: post)
      = applyMapperPipeline (applyResponseMappers v pre) post := by
  simp only [applyResponseMappers, applyMapperPipeline] at h ⊢
  rw [List.foldl_append, List.foldl_cons, applyMapperStage_keeps_value _ _ h]

/-- Witness for C7: in the 3-stage pipeline (+1, throw, *2) applied to 5,
the throwing stage 2 is skipped while stages 1 and 3 both apply in order:
(5 + 1) * 2 = 12. -/
theorem c7_mapper_fault_isolation_witness :
    applyResponseMappers 5 [stage1Ex, stage2Ex, stage3Ex] = 12 :=
  (c7_mapper_fault_isolation 5 [stage1Ex] [stage3Ex] stage2Ex (Or.inr rfl)).trans rfl

/-- C8: if the error interceptor returns a defined value, the request
resolves with exactly that value — the response mappers are not applied to
it (the result is the value itself for every response-mapper list); if the
interceptor returns `undefined` or throws, the failure goes through the
error-mapper pipeline, is handed to the `onError` callback, and is
rejected to the caller as a classified error. -/
theorem c8_error_interceptor_recovery (e : VortexError)
    (rm : List (Int → MapperOutcome Int))
    (em : List (VortexError → MapperOutcome VortexError))
    (f : VortexError → InterceptorBehavior) :
    (∀ v : Int, f e = .ret (some v) →
        executeRequestAndHandleCallbacks (.error e) rm em (some f)
          = { result := .ok v, onErrorArg := none })
    ∧ (f e = .ret none →
        executeRequestAndHandleCallbacks (.error e) rm em (some f)
          = { result := .error (applyErrorMappers e em),
              onErrorArg := some (applyErrorMappers e em) })
    ∧ (∀ e2 : VortexError, f e = .err e2 →
        executeRequestAndHandleCallbacks (.error e) rm em (some f)
          = { result := .error (applyErrorMappers e2 em),
              onErrorArg := some (applyErrorMappers e2 em) }) := by
  refine ⟨fun v h => ?_, fun h => ?_, fun e2 h => ?_⟩ <;>
    simp [executeRequestAndHandleCallbacks, h]

/-- Witness for C8: a recovering interceptor returns 42 and the request
resolves with 42 even though a response mapper (+1) is configured. -/
theorem c8_error_interceptor_recovery_witness :
    executeRequestAndHandleCallbacks (.error httpError500Ex) [stage1Ex] [] (some icptRecoverEx)
      = { result := .ok 42, onErrorArg := none } :=
  (c8_error_interceptor_recovery httpError500Ex [stage1Ex] [] icptRecoverEx).1 42 rfl

/-- C10: calling `pathParams`, `search` or `settings` with null or undefined
throws nothing, leaves the whole accumulated builder state unchanged and
returns the builder for chaining; a non-null argument that is not a plain
object raises a VALIDATION-kind error, also leaving the state unchanged. -/
theorem c10_fluent_arg_validation (s : RequestConfigState) (a : JsArg) :
    (isNullOrUndefined a = true →
        builderPathParams s a = (none, s)
        ∧ builderSearch s a = (none, s)
        ∧ builderSettings s a = (none, s))
    ∧ (isNullOrUndefined a = false → failsPlainObjectCheck a = true →
        builderPathParams s a = (some pathParamsError, s)
        ∧ builderSearch s a = (some searchParamsError, s)
        ∧ builderSettings s a = (some settingsError, s)
        ∧ pathParamsError.kind = .validation
        ∧ searchParamsError.kind = .validation
        ∧ settingsError.kind = .validation) := by
  constructor
  · intro h
    simp [builderPathParams, builderSearch, builderSettings, h]
  · intro h1 h2
    refine ⟨?_, ?_, ?_, rfl, rfl, rfl⟩ <;>
      simp [builderPathParams, builderSearch, builderSettings, h1, h2]

/-- Witness for C10: a null argument is a no-op on a populated builder
state, and a string argument raises the VALIDATION error while leaving the
state unchanged. -/
theorem c10_fluent_arg_validation_witness :
    builderPathParams builderStateEx .jsNull = (none, builderStateEx)
    ∧ builderPathParams builderStateEx (.str "nope") = (some pathParamsError, builderStateEx) :=
  ⟨((c10_fluent_arg_validation builderStateEx .jsNull).1 rfl).1,
   ((c10_fluent_arg_validation builderStateEx (.str "nope")).2 rfl rfl).1⟩

/-- C4 counterexample: the claim says an entry is never returned once
`now >= expiry`. The code checks `entry.expiry < Date.now()` strictly
(cache.js 159, 234), so at the instant `now = expiry` (entry stored with
expiry 100, clock at 100) `get` still returns the value and `has` still
returns true. -/
theorem c4_counterexample_entry_returned_at_expiry :
    mapGet cacheAtExpiryEx.cache "k" = some { data := 7, expiry := 100, createdAt := 0 }
    ∧ (cacheAtExpiryEx.get "k" 100).1 = some 7
    ∧ (cacheAtExpiryEx.has "k" 100).1 = true := by
  refine ⟨rfl, rfl, rfl⟩

/-- C4 amended: an entry is never returned strictly after its expiry
timestamp: once `now > expiry`, `get` returns null and `has` returns
false (the entry is also pruned). -/
theorem c4_amended_expired_never_returned (c : SimpleCache) (key : String) (now : Nat)
    (entry : CacheEntry) (hget : mapGet c.cache key = some entry)
    (hexp : entry.expiry < now) :
    (c.get key now).1 = none ∧ (c.has key now).1 = false := by
  unfold SimpleCache.get SimpleCache.has
  rw [hget]
  simp [hexp]

/-- Witness for C4 amended: one tick after the expiry timestamp the entry
is gone from both `get` and `has`. -/
theorem c4_amended_expired_never_returned_witness :
    (cacheAtExpiryEx.get "k" 101).1 = none ∧ (cacheAtExpiryEx.has "k" 101).1 = false :=
  c4_amended_expired_never_returned cacheAtExpiryEx "k" 101
    { data := 7, expiry := 100, createdAt := 0 } rfl (by decide)

/-- Helper for C9: a key absent from the head pair of a map is absent from
the whole map only if absent from the tail. -/
theorem mapHas_tail_false {p : String × CacheEntry} {rest : List (String × CacheEntry)}
    {k : String} (h : mapHas (p :: rest) k = false) : mapHas rest k = false := by
  unfold mapHas at h ⊢
  rw [List.any_cons] at h
  exact (Bool.or_eq_false_iff.mp h).2

/-- Helper for C9: setting an absent key appends the new binding. -/
theorem mapSet_of_not_has (m : List (String × CacheEntry)) (k : String) (e : CacheEntry)
    (h : mapHas m k = false) : mapSet m k e = m ++ [(k, e)] := by
  simp [mapSet, h]

/-- Helper for C9: setting a present key keeps the map size. -/
theorem mapSet_length_of_has (m : List (String × CacheEntry)) (k : String) (e : CacheEntry)
    (h : mapHas m k = true) : (mapSet m k e).length = m.length := by
  simp [mapSet, h]

/-- Helper for C9: the capacity bound is preserved by `set` whenever the
capacity is at least one. -/
theorem simpleCache_set_length_le (c : SimpleCache) (key : String) (data : Int)
    (ttl now : Nat) (hmax : 1 ≤ c.maxSize) (hinv : c.cache.length ≤ c.maxSize) :
    (c.set key data ttl now).cache.length ≤ c.maxSize := by
  by_cases hc : c.maxSize ≤ c.cache.length ∧ mapHas c.cache key = false
  · have hlen : c.cache.length = c.maxSize := le_antisymm hinv hc.1
    cases hcc : c.cache with
    | nil =>
        exfalso
        rw [hcc] at hlen
        simp at hlen
        omega
    | cons p rest =>
        have hrest : mapHas rest key = false := mapHas_tail_false (hcc ▸ hc.2)
        have hlen' : rest.length + 1 = c.maxSize := by
          rw [hcc] at hlen
          simpa using hlen
        simp only [SimpleCache.set]
        rw [if_pos hc]
        simp only [SimpleCache.evictOldest, hcc]
        rw [mapSet_of_not_has _ _ _ hrest]
        simp
        omega
  · by_cases hhas : mapHas c.cache key = true
    · simp only [SimpleCache.set]
      rw [if_neg hc]
      rw [mapSet_length_of_has _ _ _ hhas]
      exact hinv
    · have hb : mapHas c.cache key = false := by simpa using hhas
      have hlt : c.cache.length < c.maxSize := by
        by_contra hge
        exact hc ⟨by omega, hb⟩
      simp only [SimpleCache.set]
      rw [if_neg hc, mapSet_of_not_has _ _ _ hb]
      simp
      omega

/-- Helper for C9: at capacity, setting a fresh key deletes exactly the
oldest-inserted entry before appending the new binding, and counts one
eviction when stats are enabled. -/
theorem simpleCache_set_full_evicts_head (c : SimpleCache) (key : String) (data : Int)
    (ttl now : Nat) (hmax : 1 ≤ c.maxSize)
    (hfull : c.cache.length = c.maxSize) (hnew : mapHas c.cache key = false) :
    (c.set key data ttl now).cache
        = c.cache.tail ++ [(key, { data := data, expiry := now + ttl, createdAt := now })]
    ∧ (c.enableStats = true → (c.set key data ttl now).evictions = c.evictions + 1) := by
  have hc : c.maxSize ≤ c.cache.length ∧ mapHas c.cache key = false :=
    ⟨le_of_eq hfull.symm, hnew⟩
  cases hcc : c.cache with
  | nil =>
      exfalso
      rw [hcc] at hfull
      simp at hfull
      omega
  | cons p rest =>
      have hrest : mapHas rest key = false := mapHas_tail_false (hcc ▸ hnew)
      constructor
      · simp only [SimpleCache.set]
        rw [if_pos hc]
        simp only [SimpleCache.evictOldest, hcc]
        rw [mapSet_of_not_has _ _ _ hrest]
        simp
      · intro hstats
        simp only [SimpleCache.set]
        rw [if_pos hc]
        simp only [SimpleCache.evictOldest, hcc]
        simp [incrStat, hstats]

/-- Helper for C9: setting an already-present key never evicts and keeps the
map size. -/
theorem simpleCache_set_existing_no_evict (c : SimpleCache) (key : String) (data : Int)
    (ttl now : Nat) (hhas : mapHas c.cache key = true) :
    (c.set key data ttl now).evictions = c.evictions
    ∧ (c.set key data ttl now).cache.length = c.cache.length := by
  have hc : ¬(c.maxSize ≤ c.cache.length ∧ mapHas c.cache key = false) := by
    simp [hhas]
  constructor
  · simp only [SimpleCache.set]
    rw [if_neg hc]
  · simp only [SimpleCache.set]
    rw [if_neg hc]
    exact mapSet_length_of_has _ _ _ hhas

/-- C9 counterexample: the claim fails for a cache constructed with
`maxSize: 0`. Starting from the empty cache (which satisfies
`size <= maxSize`), `set` of a fresh key finds `size >= maxSize`, but
`_evictOldest` has nothing to delete, so the new entry is stored anyway:
afterwards the cache holds 1 entry, exceeding `maxSize = 0`, and no entry
was deleted or counted as an eviction. -/
theorem c9_counterexample_zero_capacity :
    zeroCapacityCacheEx.cache.length ≤ zeroCapacityCacheEx.maxSize
    ∧ zeroCapacityCacheEx.maxSize = 0
    ∧ mapHas zeroCapacityCacheEx.cache "k" = false
    ∧ (zeroCapacityCacheEx.set "k" 1 10 0).cache.length = 1
    ∧ (zeroCapacityCacheEx.set "k" 1 10 0).evictions = 0 := by
  refine ⟨by decide, rfl, rfl, rfl, rfl⟩

/-- C9 amended: provided the capacity is at least one (ruling out the
degenerate `maxSize = 0` construction), every `set` preserves
`size <= maxSize`; at capacity, setting a fresh key deletes exactly one
entry — the oldest-inserted one — before the new entry is stored
(counting an eviction when stats are enabled), and setting an
already-present key never evicts. -/
theorem c9_amended_capacity (c : SimpleCache) (key : String) (data : Int) (ttl now : Nat)
    (hmax : 1 ≤ c.maxSize) (hinv : c.cache.length ≤ c.maxSize) :
    (c.set key data ttl now).cache.length ≤ c.maxSize
    ∧ (c.cache.length = c.maxSize → mapHas c.cache key = false →
        (c.set key data ttl now).cache
            = c.cache.tail ++ [(key, { data := data, expiry := now + ttl, createdAt := now })]
        ∧ (c.enableStats = true → (c.set key data ttl now).evictions = c.evictions + 1))
    ∧ (mapHas c.cache key = true →
        (c.set key data ttl now).evictions = c.evictions
        ∧ (c.set key data ttl now).cache.length = c.cache.length) :=
  ⟨simpleCache_set_length_le c key data ttl now hmax hinv,
   fun hfull hnew => simpleCache_set_full_evicts_head c key data ttl now hmax hfull hnew,
   fun hhas => simpleCache_set_existing_no_evict c key data ttl now hhas⟩

/-- Witness for C9 amended: a capacity-1 cache at capacity stays at one
entry after storing a fresh key. -/
theorem c9_amended_capacity_witness :
    (fullCacheEx.set "b" 2 10 5).cache.length ≤ fullCacheEx.maxSize :=
  (c9_amended_capacity fullCacheEx "b" 2 10 5 (by decide) (by decide)).1
